import Mathlib

/-!
# Swap-quote aggregation: a shallow embedding of `api/cow` and `api/graph`

The Go sources embedded here are

* `api/cow/cow.go`            (gateway client, fake client, `chainIDToName`),
* `api/cow/swaptokens.go`     (the token table and its `init`),
* `api/graph/tally-proposal.resolvers.go` (`AvailableSwaps`, `QuoteSwap`, `getSwapQuote`).

Conventions of the embedding.

* A Go `error` is identified with the text its `Error()` method returns.
* A Go pointer that the code may leave `nil` is an `Option`; reading a field
  through a `nil` pointer ends the run with `Run.nilDeref`.
* Calls that leave the process (HTTP, data store, price oracle) are recorded in
  an explicit trace of `Event`s, returned next to the result.
* `uint64` is a `Nat` below `2 ^ 64`, `int64` an `Int`; conversions are written
  out with their wrap-around.
* A `float64` is carried as its IEEE-754 bit pattern; the code never computes
  with it, it only stores and forwards it.
-/

namespace Swaps

/-! ## Base types -/

/-- A Go `error`, identified with its message. -/
structure GoError where
  msg : String
deriving DecidableEq, Repr

/-- Outcome of running a piece of Go code that may dereference a nil pointer. -/
inductive Run (α : Type) where
  | done (v : α)
  | nilDeref
deriving DecidableEq, Repr

/-- A `float64`, as its IEEE-754 binary64 bit pattern. -/
structure Float64 where
  bits : Nat
deriving DecidableEq, Repr

/-- The zero value of `float64` (what `new(float64)` points to). -/
def Float64.zero : Float64 := ⟨0⟩

/-- `types.ChainID`: namespace and reference (also used for the proto message). -/
structure ChainID where
  Namespace : String
  Reference : String
deriving DecidableEq, Repr

/-- `types.AccountID`: a chain and an address on it.  `Address().Hex()` is the
`Address` field. -/
structure AccountID where
  ChainID : ChainID
  Address : String
deriving DecidableEq, Repr

/-- `proto.AccountID`: the generated message; `ChainId` is a pointer field. -/
structure ProtoAccountID where
  ChainId : Option ChainID
  Address : String
deriving DecidableEq, Repr

/-- Modelled from the spec: `proto.AccountIDToProto` is not among the source
files; it carries the chain and the address of a resolved id over to the
message form (the "chain-qualified id"). -/
def AccountIDToProto (id : AccountID) : ProtoAccountID :=
  { ChainId := some id.ChainID, Address := id.Address }

/-- Modelled from the spec: the generated `String()` of `proto.AccountID` is not
among the source files; the "chain-qualified id (string form)" is rendered as
namespace, reference and address separated by colons. -/
def ProtoAccountID.String (p : ProtoAccountID) : String :=
  match p.ChainId with
  | some c => c.Namespace ++ ":" ++ c.Reference ++ ":" ++ p.Address
  | none => ":" ++ p.Address

/-- Generated getter `GetChainId`, safe on a nil receiver. -/
def GetChainId (p : Option ProtoAccountID) : Option ChainID :=
  match p with
  | some id => id.ChainId
  | none => none

/-! ## `api/cow/cow.go` -/

/-- The constant `ErrSellAmountDoesNotCoverFee`. -/
def ErrSellAmountDoesNotCoverFee : String := "SellAmountDoesNotCoverFee"

/-- The struct `Quote`. -/
structure Quote where
  SellToken : String
  BuyToken : String
  SellAmount : String
  BuyAmount : String
  ValidTo : Nat
  AppData : String
  FeeAmount : String
  Kind : String
  PartiallyFillable : Bool
  SellTokenBalance : String
  BuyTokenBalance : String
  SigningScheme : String
deriving DecidableEq, Repr

/-- The struct `QuoteResponse` (`Expiration` as Unix seconds). -/
structure QuoteResponse where
  Quote : Quote
  From : String
  Expiration : Int
  ID : Nat
  ErrorType : String
  Description : String
deriving DecidableEq, Repr

/-- The struct `QuoteRequest`. -/
structure QuoteRequest where
  SellToken : String
  BuyToken : String
  PartiallyFillable : Bool
  From : String
  Kind : String
  SellAmountBeforeFee : String
deriving DecidableEq, Repr

/-- The struct `NativePriceResponse`: three pointer fields. -/
structure NativePriceResponse where
  ErrorType : Option String
  Description : Option String
  Price : Option Float64
deriving DecidableEq, Repr

/-- The struct `Order`. -/
structure Order where
  UID : String
  Status : String
  BuyAmount : String
deriving DecidableEq, Repr

/-- An HTTP request made by the gateway client. -/
inductive HttpCall where
  | post (url : String) (contentType : String) (body : String)
  | get (url : String)
deriving DecidableEq, Repr

/-- The interface `IClient`.  Each method returns the HTTP requests it made
together with its Go result; a `Quote` that returns no error returns a
response (as `(*Client).Quote` does, which allocates it). -/
structure IClient where
  Quote : ChainID → QuoteRequest → List HttpCall × Except GoError QuoteResponse
  NativePrice : AccountID → List HttpCall × Run (Except GoError NativePriceResponse)
  Orders : ChainID → String → List HttpCall × Except GoError (List Order)

/-- What lies beyond the process for the real client: the JSON codec and the
HTTP transport.  `post` and `get` answer with the outcome of the request and,
inside it, the outcome of reading the body.  `NativePrice` decodes into a
pointer to its response pointer, which a JSON `null` leaves nil. -/
structure Net where
  marshal : QuoteRequest → Except GoError String
  post : String → String → String → Except GoError (Except GoError String)
  get : String → Except GoError (Except GoError String)
  unmarshalQuote : String → Except GoError QuoteResponse
  unmarshalNativePrice : String → Except GoError (Option NativePriceResponse)
  unmarshalOrders : String → Except GoError (List Order)

/-- The function `chainIDToName`. -/
def chainIDToName (chainID : ChainID) : Except GoError String :=
  if chainID.Reference = "1" then .ok "mainnet" else .error ⟨"invalid chain"⟩

/-- The URL `quoteURL` with the chain name filled in. -/
def quoteURL (chainName : String) : String :=
  "https://api.cow.fi/" ++ chainName ++ "/api/v1/quote"

/-- The URL `nativePriceURL` with chain name and address filled in. -/
def nativePriceURL (chainName address : String) : String :=
  "https://api.cow.fi/" ++ chainName ++ "/api/v1/token/" ++ address ++ "/native_price"

/-- The URL `ordersURL` with chain name and address filled in. -/
def ordersURL (chainName address : String) : String :=
  "https://api.cow.fi/" ++ chainName ++ "/api/v1/account/" ++ address ++ "/orders"

/-- The method `(*Client).Quote`. -/
def Client.Quote (net : Net) (chainID : ChainID) (req : QuoteRequest) :
    List HttpCall × Except GoError QuoteResponse :=
  match chainIDToName chainID with
  | .error _ => ([], .error ⟨"getting chain name"⟩)
  | .ok chainName =>
    match net.marshal req with
    | .error _ => ([], .error ⟨"marhsaling quote request"⟩)
    | .ok marshaled =>
      let call := HttpCall.post (quoteURL chainName) "application/json" marshaled
      match net.post (quoteURL chainName) "application/json" marshaled with
      | .error _ => ([call], .error ⟨"making quote request"⟩)
      | .ok res =>
        match res with
        | .error _ => ([call], .error ⟨"reading quote response body"⟩)
        | .ok resBody =>
          match net.unmarshalQuote resBody with
          | .error _ => ([call], .error ⟨"unmarshaling quote response " ++ resBody⟩)
          | .ok quote =>
            if quote.ErrorType ≠ "" then ([call], .error ⟨quote.ErrorType⟩)
            else ([call], .ok quote)

/-- The last statements of `(*Client).NativePrice`, after the response has been
decoded: the test of `ErrorType` and the read of `*price.Description`. -/
def Client.NativePrice.decide (price : NativePriceResponse) :
    Run (Except GoError NativePriceResponse) :=
  match price.ErrorType with
  | some _ =>
    match price.Description with
    | some d => .done (.error ⟨d⟩)
    | none => .nilDeref
  | none => .done (.ok price)

/-- The method `(*Client).NativePrice`. -/
def Client.NativePrice (net : Net) (tokenID : AccountID) :
    List HttpCall × Run (Except GoError NativePriceResponse) :=
  match chainIDToName tokenID.ChainID with
  | .error _ => ([], .done (.error ⟨"getting chain name"⟩))
  | .ok chainName =>
    let url := nativePriceURL chainName tokenID.Address
    match net.get url with
    | .error _ => ([.get url], .done (.error ⟨"getting native price data"⟩))
    | .ok res =>
      match res with
      | .error _ => ([.get url], .done (.error ⟨"reading native price data"⟩))
      | .ok body =>
        match net.unmarshalNativePrice body with
        | .error _ => ([.get url], .done (.error ⟨"marshalling native price data"⟩))
        | .ok none => ([.get url], .nilDeref)
        | .ok (some price) => ([.get url], Client.NativePrice.decide price)

/-- The method `(*Client).Orders`. -/
def Client.Orders (net : Net) (chainID : ChainID) (address : String) :
    List HttpCall × Except GoError (List Order) :=
  match chainIDToName chainID with
  | .error _ => ([], .error ⟨"getting chain name"⟩)
  | .ok chainName =>
    let url := ordersURL chainName address
    match net.get url with
    | .error _ => ([.get url], .error ⟨"getting orders data"⟩)
    | .ok res =>
      match res with
      | .error _ => ([.get url], .error ⟨"reading orders data"⟩)
      | .ok body =>
        match net.unmarshalOrders body with
        | .error _ => ([.get url], .error ⟨"marshalling native price data"⟩)
        | .ok orders => ([.get url], .ok orders)

/-- The real client as an `IClient`. -/
def Client.toIClient (net : Net) : IClient :=
  { Quote := Client.Quote net
    NativePrice := Client.NativePrice net
    Orders := Client.Orders net }

/-- The struct `FakeClient`. -/
structure FakeClient where
  quoteError : Bool
deriving DecidableEq, Repr

/-- The constructor `NewFakeClient`. -/
def NewFakeClient : FakeClient := { quoteError := false }

/-- The method `SetQuoteError`. -/
def FakeClient.SetQuoteError (_fcc : FakeClient) : FakeClient := { quoteError := true }

/-- The method `(*FakeClient).Quote`; the package variable `quoteResponse` it
answers with is a parameter. -/
def FakeClient.Quote (quoteResponse : QuoteResponse) (fcc : FakeClient)
    (_chainID : ChainID) (_req : QuoteRequest) :
    List HttpCall × Except GoError QuoteResponse :=
  if fcc.quoteError then ([], .error ⟨ErrSellAmountDoesNotCoverFee⟩)
  else ([], .ok quoteResponse)

/-- The method `(*FakeClient).NativePrice`. -/
def FakeClient.NativePrice (_fcc : FakeClient) (_tokenID : AccountID) :
    List HttpCall × Run (Except GoError NativePriceResponse) :=
  ([], .done (.ok { ErrorType := none, Description := none, Price := none }))

/-- The method `(*FakeClient).Orders`. -/
def FakeClient.Orders (_fcc : FakeClient) (_chainID : ChainID) (_address : String) :
    List HttpCall × Except GoError (List Order) :=
  ([], .ok [])

/-- The fake client as an `IClient`. -/
def FakeClient.toIClient (quoteResponse : QuoteResponse) (fcc : FakeClient) : IClient :=
  { Quote := FakeClient.Quote quoteResponse fcc
    NativePrice := FakeClient.NativePrice fcc
    Orders := FakeClient.Orders fcc }

/-! ## `api/cow/swaptokens.go` -/

/-- The struct `SwapToken`; `ID` is a pointer, nil until it is set. -/
structure SwapToken where
  Address : String
  ID : Option ProtoAccountID
  Symbol : String
  Name : String
  Decimals : Int
  Logo : String
deriving DecidableEq, Repr

/-- The package variable `SwapTokens` as the source declares it. -/
def SwapTokens : List SwapToken :=
  [ { Symbol := "USDC", Name := "USD Coin",
      Address := "0xA0b86991c6218b36c1d19D4a2e9Eb0cE3606eB48", ID := none, Decimals := 6,
      Logo := "https://tokens.1inch.io/0xa0b86991c6218b36c1d19d4a2e9eb0ce3606eb48.png" },
    { Symbol := "WETH", Name := "Wrapped Ether",
      Address := "0xC02aaA39b223FE8D0A0e5C4F27eAD9083C756Cc2", ID := none, Decimals := 18,
      Logo := "https://tokens.1inch.io/0xc02aaa39b223fe8d0a0e5c4f27ead9083c756cc2.png" },
    { Symbol := "USDT", Name := "Tether USD",
      Address := "0xdAC17F958D2ee523a2206206994597C13D831ec7", ID := none, Decimals := 6,
      Logo := "https://tokens.1inch.io/0xdac17f958d2ee523a2206206994597c13d831ec7.png" },
    { Symbol := "DAI", Name := "Dai Stablecoin",
      Address := "0x6B175474E89094C44Da98b954EedeAC495271d0F", ID := none, Decimals := 18,
      Logo := "https://tokens.1inch.io/0x6b175474e89094c44da98b954eedeac495271d0f.png" } ]

/-- A Go `map[string]SwapToken`, as an association list with unique keys. -/
abbrev TokenMap := List (String × SwapToken)

/-- The map read `m[k]` with its `ok` flag. -/
def TokenMap.get (m : TokenMap) (k : String) : Option SwapToken :=
  match m with
  | [] => none
  | (k1, v) :: rest => if k1 = k then some v else TokenMap.get rest k

/-- The map write `m[k] = v`: replaces the entry under `k` or adds one. -/
def TokenMap.set (m : TokenMap) (k : String) (v : SwapToken) : TokenMap :=
  match m with
  | [] => [(k, v)]
  | (k1, v1) :: rest => if k1 = k then (k, v) :: rest else (k1, v1) :: TokenMap.set rest k v

/-- The two package variables `init` works on. -/
structure Registry where
  SwapTokens : List SwapToken
  SwapTokensMap : TokenMap
deriving DecidableEq, Repr

/-- The `for _, t := range SwapTokens` loop of `init`.  The loop variable `t` is
a copy of the element: `t.ID = tid` changes the copy, which is then stored in
the map; the slice is not written.  An address that does not resolve ends
`init` with `return`. -/
def initLoop (NewAccountID : ChainID → String → Except GoError AccountID) (c : ChainID) :
    List SwapToken → TokenMap → TokenMap
  | [], m => m
  | t :: rest, m =>
    match NewAccountID c t.Address with
    | .error _ => m
    | .ok id =>
      let tid := AccountIDToProto id
      let t1 : SwapToken := { t with ID := some tid }
      initLoop NewAccountID c rest (m.set tid.String t1)

/-- The function `init`, with `types.NewChainID` and `types.NewAccountID` (not
among the source files) as parameters. -/
def init (NewChainID : String → String → Except GoError ChainID)
    (NewAccountID : ChainID → String → Except GoError AccountID) (g : Registry) : Registry :=
  match NewChainID "eip155" "1" with
  | .error _ => g
  | .ok c =>
    { SwapTokens := g.SwapTokens
      SwapTokensMap := initLoop NewAccountID c g.SwapTokens g.SwapTokensMap }

/-- The package state before `init` runs: the declared list and an empty map. -/
def declaredRegistry : Registry := { SwapTokens := Swaps.SwapTokens, SwapTokensMap := [] }

/-! ## `api/graph/tally-proposal.resolvers.go` -/

/-- gRPC status codes used by the resolvers. -/
inductive Code where
  | InvalidArgument
  | NotFound
  | Internal
deriving DecidableEq, Repr

/-- The value of `status.Error(code, msg)`. -/
structure StatusError where
  code : Code
  msg : String
deriving DecidableEq, Repr

/-- The constant `ErrInternalServerError`; it is declared outside the source
files, and its text here is a stand-in that no statement depends on. -/
def ErrInternalServerError : String := "internal server error"

/-- The struct `timestamppb.Timestamp`. -/
structure Timestamp where
  Seconds : Int
  Nanos : Int
deriving DecidableEq, Repr

/-- The conversion `int64(x)` of a `uint64`: two's complement wrap-around. -/
def int64OfUint64 (x : Nat) : Int :=
  if x % 2 ^ 64 < 2 ^ 63 then (x % 2 ^ 64 : Nat) else (x % 2 ^ 64 : Nat) - 2 ^ 64

/-- The expression `timestamppb.New(time.Unix(sec, 0))`: `time.Unix` keeps the
seconds and a zero nanosecond part, `timestamppb.New` reads them back. -/
def timestampOfUnix (sec : Int) : Timestamp := { Seconds := sec, Nanos := 0 }

/-- The struct `model.SwapQuote`. -/
structure SwapQuote where
  BuyAmount : Nat
  BuyTokenQuoteRate : Option Float64
  SellAmount : Nat
  FeeAmount : Nat
  ValidTo : Timestamp
deriving DecidableEq, Repr

/-- Modelled from the spec: the response type of the oracle's `TokenPrice` is
not among the source files; `LastPrice()` yields "the oracle's last price if
present". -/
structure TokenPriceResponse where
  LastPrice : Option Float64
deriving DecidableEq, Repr

/-- The interface `covalent.IClient`, as far as the resolvers use it. -/
structure CovalentClient where
  TokenPrice : String → String → Int → Except GoError (Option TokenPriceResponse)

/-- A call that leaves the process, as recorded in the trace. -/
inductive Event where
  | governanceGet (gid : AccountID)
  | balances (treasury : AccountID)
  | cowQuote (chainID : ChainID) (req : QuoteRequest)
  | http (call : HttpCall)
  | tokenPrice (chainRef : String) (token : String) (asOf : Int)
deriving DecidableEq, Repr

/-- Whether an event is a call of the gateway's `Quote`. -/
def Event.isCowQuote : Event → Bool
  | .cowQuote _ _ => true
  | _ => false

/-- Whether an event is a call of the oracle's `TokenPrice`. -/
def Event.isTokenPrice : Event → Bool
  | .tokenPrice _ _ _ => true
  | _ => false

/-- Whether an event is an HTTP request of the gateway client. -/
def Event.isHttp : Event → Bool
  | .http _ => true
  | _ => false

/-- The function `getSwapQuote`.  `ParseUint256` stands for `types.ParseUint256`
(not among the source files) and `now` for `time.Now()`. -/
def getSwapQuote (ParseUint256 : String → Except GoError Nat) (now : Int)
    (cowClient : IClient) (covClient : CovalentClient) (chainID : ChainID)
    (sellToken buyToken from_ sellAmount : String) :
    List Event × Except GoError SwapQuote :=
  let req : QuoteRequest :=
    { SellToken := sellToken, BuyToken := buyToken, PartiallyFillable := false,
      From := from_, Kind := "sell", SellAmountBeforeFee := sellAmount }
  let tr1 := Event.cowQuote chainID req :: (cowClient.Quote chainID req).1.map Event.http
  match (cowClient.Quote chainID req).2 with
  | .error err =>
    if err.msg = ErrSellAmountDoesNotCoverFee then (tr1, .error err)
    else (tr1, .error ⟨"getting swap quote"⟩)
  | .ok q =>
    let tr2 := tr1 ++ [Event.tokenPrice chainID.Reference buyToken now]
    match covClient.TokenPrice chainID.Reference buyToken now with
    | .error _ => (tr2, .error ⟨"getting buy token price"⟩)
    | .ok tp =>
      let buyTokenQuoteRate : Option Float64 :=
        match tp with
        | some p => p.LastPrice
        | none => some Float64.zero
      match ParseUint256 q.Quote.BuyAmount with
      | .error err => (tr2, .error err)
      | .ok buyAmount =>
        match ParseUint256 q.Quote.SellAmount with
        | .error err => (tr2, .error err)
        | .ok selAmount =>
          match ParseUint256 q.Quote.FeeAmount with
          | .error err => (tr2, .error err)
          | .ok feeAmount =>
            (tr2, .ok
              { BuyAmount := buyAmount
                BuyTokenQuoteRate := buyTokenQuoteRate
                SellAmount := selAmount
                FeeAmount := feeAmount
                ValidTo := timestampOfUnix (int64OfUint64 q.Quote.ValidTo) })

/-- Failure of `Governance.Get`: not found, or anything else. -/
inductive GetError where
  | notFound
  | other (e : GoError)
deriving DecidableEq, Repr

/-- A governance row, as far as the resolvers read it. -/
structure Governor where
  TreasuryID : AccountID
deriving DecidableEq, Repr

/-- One item of a balances answer. -/
structure BalanceItem where
  ContractAddress : String
  ContractName : String
deriving DecidableEq, Repr

/-- The resolver's collaborators and the package state it reads.  `ToCAIP`,
`GovernanceGet`, `Balances`, `NewEVMAccountID` and `ParseUint256` are declared
outside the source files and enter as parameters. -/
structure Resolver where
  Cow : IClient
  Covalent : CovalentClient
  ToCAIP : ProtoAccountID → Except GoError AccountID
  GovernanceGet : AccountID → Except GetError Governor
  Balances : AccountID → Except GoError (List BalanceItem)
  NewEVMAccountID : ChainID → String → Except GoError AccountID
  ParseUint256 : String → Except GoError Nat
  now : Int
  registry : Registry

/-- The resolver `QuoteSwap`.  `sellAmount.String()` is the decimal rendering
of the amount. -/
def QuoteSwap (r : Resolver) (governorID buy sell : ProtoAccountID) (sellAmount : Nat) :
    List Event × Except StatusError SwapQuote :=
  match r.ToCAIP governorID with
  | .error _ => ([], .error ⟨.InvalidArgument, "invalid governor id"⟩)
  | .ok gid =>
    match r.GovernanceGet gid with
    | .error .notFound => ([.governanceGet gid], .error ⟨.NotFound, "governor not found"⟩)
    | .error (.other _) => ([.governanceGet gid], .error ⟨.Internal, ErrInternalServerError⟩)
    | .ok g =>
      match r.registry.SwapTokensMap.get buy.String with
      | none => ([.governanceGet gid], .error ⟨.InvalidArgument, "buy token not availble"⟩)
      | some _ =>
        let res := getSwapQuote r.ParseUint256 r.now r.Cow r.Covalent gid.ChainID
          sell.Address buy.Address g.TreasuryID.Address (toString sellAmount)
        match res.2 with
        | .error err =>
          if err.msg = ErrSellAmountDoesNotCoverFee then
            (.governanceGet gid :: res.1,
              .error ⟨.InvalidArgument, "sell amount is lower than the fee"⟩)
          else (.governanceGet gid :: res.1, .error ⟨.Internal, err.msg⟩)
        | .ok q => (.governanceGet gid :: res.1, .ok q)

/-- The struct `model.SwapAssets`. -/
structure SwapAssets where
  Sell : List BalanceItem
  Buy : List SwapToken
deriving DecidableEq, Repr

/-- The first loop of `AvailableSwaps`, over the balance items. -/
def sellLoop (r : Resolver) (gid : AccountID) :
    List BalanceItem → List BalanceItem → Except StatusError (List BalanceItem)
  | [], acc => .ok acc
  | b :: rest, acc =>
    match r.NewEVMAccountID gid.ChainID b.ContractAddress with
    | .error _ => .error ⟨.Internal, ErrInternalServerError⟩
    | .ok tid =>
      let protoTID := AccountIDToProto tid
      if (r.registry.SwapTokensMap.get protoTID.String).isSome ∨ b.ContractName = "Ether" then
        sellLoop r gid rest (acc ++ [b])
      else sellLoop r gid rest acc

/-- The second loop of `AvailableSwaps`, over `cow.SwapTokens`: the test reads
`t.ID.GetChainId().Reference`, a field read through the pointer that the
nil-safe getter returns. -/
def buyLoop (gid : AccountID) : List SwapToken → List SwapToken → Run (List SwapToken)
  | [], acc => .done acc
  | t :: rest, acc =>
    match GetChainId t.ID with
    | none => .nilDeref
    | some c =>
      if gid.ChainID.Reference = c.Reference then buyLoop gid rest (acc ++ [t])
      else buyLoop gid rest acc

/-- The resolver `AvailableSwaps`. -/
def AvailableSwaps (r : Resolver) (governorID : ProtoAccountID) :
    List Event × Run (Except StatusError SwapAssets) :=
  match r.ToCAIP governorID with
  | .error _ => ([], .done (.error ⟨.InvalidArgument, "invalid governor id"⟩))
  | .ok gid =>
    match r.GovernanceGet gid with
    | .error .notFound =>
      ([.governanceGet gid], .done (.error ⟨.NotFound, "governor not found"⟩))
    | .error (.other _) =>
      ([.governanceGet gid], .done (.error ⟨.Internal, ErrInternalServerError⟩))
    | .ok g =>
      let tr := [Event.governanceGet gid, Event.balances g.TreasuryID]
      match r.Balances g.TreasuryID with
      | .error _ => (tr, .done (.error ⟨.Internal, ErrInternalServerError⟩))
      | .ok items =>
        match sellLoop r gid items [] with
        | .error e => (tr, .done (.error e))
        | .ok sellList =>
          match buyLoop gid r.registry.SwapTokens [] with
          | .nilDeref => (tr, .nilDeref)
          | .done buyList => (tr, .done (.ok { Sell := sellList, Buy := buyList }))

/-- Modelled from the spec: `types.ParseUint256` is not among the source files.
The digits of a decimal string, most significant first; fails on an empty
string or on a character that is not a decimal digit. -/
def parseDigits : List Char → Nat → Option Nat
  | [], acc => some acc
  | c :: rest, acc =>
    if c.isDigit then parseDigits rest (acc * 10 + (c.toNat - 48)) else none

/-- Modelled from the spec: `types.ParseUint256` is not among the source files;
it parses a "decimal-string form into unsigned big-integer values", lossless
"for any non-negative integer string up to 256 bits", and fails otherwise. -/
def ParseUint256 (s : String) : Except GoError Nat :=
  if s.data = [] then .error ⟨"parsing uint256: " ++ s⟩
  else
    match parseDigits s.data 0 with
    | some n => if n < 2 ^ 256 then .ok n else .error ⟨"parsing uint256: " ++ s⟩
    | none => .error ⟨"parsing uint256: " ++ s⟩

/-! ## Concrete values used to run the definitions -/

/-- Ethereum mainnet, `eip155:1`. -/
def mainnet : ChainID := { Namespace := "eip155", Reference := "1" }

/-- Polygon, `eip155:137`: a chain the gateway does not serve. -/
def polygon : ChainID := { Namespace := "eip155", Reference := "137" }

/-- The address of USDC in the token table. -/
def usdcAddress : String := "0xA0b86991c6218b36c1d19D4a2e9Eb0cE3606eB48"

/-- The address of WETH in the token table. -/
def wethAddress : String := "0xC02aaA39b223FE8D0A0e5C4F27eAD9083C756Cc2"

/-- A treasury address. -/
def treasuryAddress : String := "0x1a9C8182C09F50C8318d769245beA52c32BE35BC"

/-- A gateway quote with the given amounts and validity, other fields fixed. -/
def quoteWith (buyAmount sellAmount feeAmount : String) (validTo : Nat) : QuoteResponse :=
  { Quote :=
      { SellToken := usdcAddress, BuyToken := wethAddress, SellAmount := sellAmount,
        BuyAmount := buyAmount, ValidTo := validTo, AppData := "", FeeAmount := feeAmount,
        Kind := "sell", PartiallyFillable := false, SellTokenBalance := "erc20",
        BuyTokenBalance := "erc20", SigningScheme := "eip1271" }
    From := treasuryAddress, Expiration := 0, ID := 1, ErrorType := "", Description := "" }

/-- The quote of the USDC to WETH scenario: 500 USDC for 0.25 WETH. -/
def scenarioQuote : QuoteResponse :=
  quoteWith "250000000000000000" "500000000" "10000" 1700000000

/-- The `float64` 1800.50: sign 0, exponent 1033, fraction `0xC220000000000`. -/
def price1800_50 : Float64 := ⟨0x409C220000000000⟩

/-- An oracle that answers every request with the same result. -/
def constOracle (res : Except GoError (Option TokenPriceResponse)) : CovalentClient :=
  { TokenPrice := fun _ _ _ => res }

/-- A gateway client that answers every quote request with the same result and
makes no request of its own. -/
def constGateway (res : Except GoError QuoteResponse) : IClient :=
  { Quote := fun _ _ => ([], res)
    NativePrice := fun _ => ([], .done (.ok { ErrorType := none, Description := none, Price := none }))
    Orders := fun _ _ => ([], .ok []) }

/-! ## Auxiliary definitions for the statements -/

/-- The request `getSwapQuote` builds from its arguments. -/
def quoteRequestOf (sellToken buyToken from_ sellAmount : String) : QuoteRequest :=
  { SellToken := sellToken, BuyToken := buyToken, PartiallyFillable := false,
    From := from_, Kind := "sell", SellAmountBeforeFee := sellAmount }

/-- The trace of `getSwapQuote` up to and including the gateway call. -/
def gatewayTrace (cowClient : IClient) (chainID : ChainID) (req : QuoteRequest) : List Event :=
  Event.cowQuote chainID req :: (cowClient.Quote chainID req).1.map Event.http

/-- The rate `getSwapQuote` puts in its answer: `new(float64)`, replaced by
`tp.LastPrice()` when the oracle's answer `tp` is not nil. -/
def rateOf (tp : Option TokenPriceResponse) : Option Float64 :=
  match tp with
  | some p => p.LastPrice
  | none => some Float64.zero

/-- A chain-id constructor that accepts every namespace and reference. -/
def sampleNewChainID (ns ref : String) : Except GoError ChainID :=
  .ok { Namespace := ns, Reference := ref }

/-- An account-id resolver that accepts exactly the addresses of 42 characters. -/
def sampleNewAccountID (c : ChainID) (address : String) : Except GoError AccountID :=
  if address.length = 42 then .ok { ChainID := c, Address := address }
  else .error ⟨"invalid address"⟩

/-- A conversion of a message id that fails exactly on a missing chain. -/
def sampleToCAIP (p : ProtoAccountID) : Except GoError AccountID :=
  match p.ChainId with
  | some c => .ok { ChainID := c, Address := p.Address }
  | none => .error ⟨"missing chain id"⟩

/-- A transport on which every request fails and a codec that encodes every
request to the same text. -/
def sampleNet : Net :=
  { marshal := fun _ => .ok "request"
    post := fun _ _ _ => .error ⟨"connection refused"⟩
    get := fun _ => .error ⟨"connection refused"⟩
    unmarshalQuote := fun _ => .error ⟨"unexpected end of JSON input"⟩
    unmarshalNativePrice := fun _ => .error ⟨"unexpected end of JSON input"⟩
    unmarshalOrders := fun _ => .error ⟨"unexpected end of JSON input"⟩ }

/-- A resolver over the given gateway, oracle and registry: every governor is
found and has the same treasury, which holds USDC. -/
def sampleResolver (cowClient : IClient) (covClient : CovalentClient) (reg : Registry) :
    Resolver :=
  { Cow := cowClient
    Covalent := covClient
    ToCAIP := sampleToCAIP
    GovernanceGet := fun gid => .ok { TreasuryID := { ChainID := gid.ChainID, Address := treasuryAddress } }
    Balances := fun _ => .ok [{ ContractAddress := usdcAddress, ContractName := "USD Coin" }]
    NewEVMAccountID := sampleNewAccountID
    ParseUint256 := ParseUint256
    now := 0
    registry := reg }

/-- The package state after `init` has run on the declared table. -/
def initialized : Registry := init sampleNewChainID sampleNewAccountID declaredRegistry

/-- The message id of an address on a chain. -/
def protoID (c : ChainID) (address : String) : ProtoAccountID :=
  { ChainId := some c, Address := address }

/-- A governor address. -/
def governorAddress : String := "0x408ED6354d4973f66138C91495F2f2FCbd8724C3"

/-- An address that is not in the token table. -/
def unlistedAddress : String := "0x1f9840a85d5aF5bf1D1762F925BDADdC4201F984"

/-- The USDC entry of the declared table. -/
def usdcToken : SwapToken :=
  { Symbol := "USDC", Name := "USD Coin", Address := usdcAddress, ID := none, Decimals := 6,
    Logo := "https://tokens.1inch.io/0xa0b86991c6218b36c1d19d4a2e9eb0ce3606eb48.png" }

/-- A transport on which every read succeeds with an empty body, and a codec
that decodes every native-price body to the given response. -/
def nativePriceNet (price : NativePriceResponse) : Net :=
  { marshal := fun _ => .ok "request"
    post := fun _ _ _ => .ok (.ok "")
    get := fun _ => .ok (.ok "")
    unmarshalQuote := fun _ => .error ⟨"unexpected end of JSON input"⟩
    unmarshalNativePrice := fun _ => .ok (some price)
    unmarshalOrders := fun _ => .ok [] }

/-- The entries `init` writes for a table: key and stored copy of each token,
in table order, up to the first token whose address does not resolve. -/
def registeredEntries (NewAccountID : ChainID → String → Except GoError AccountID)
    (c : ChainID) : List SwapToken → List (String × SwapToken)
  | [] => []
  | t :: rest =>
    match NewAccountID c t.Address with
    | .error _ => []
    | .ok id =>
      ((AccountIDToProto id).String, { t with ID := some (AccountIDToProto id) })
        :: registeredEntries NewAccountID c rest

/-- A resolver that rejects one given address and otherwise accepts the
addresses of 42 characters. -/
def rejectingNewAccountID (bad : String) (c : ChainID) (address : String) :
    Except GoError AccountID :=
  if address = bad then .error ⟨"invalid address"⟩ else sampleNewAccountID c address

/-! ## Shared lemmas on `getSwapQuote` -/

/-- What `getSwapQuote` returns when the gateway's `Quote` fails. -/
theorem getSwapQuote_quote_error (parse : String → Except GoError Nat) (now : Int)
    (cowClient : IClient) (covClient : CovalentClient) (chainID : ChainID)
    (sellToken buyToken from_ sellAmount : String) (err : GoError)
    (hq : (cowClient.Quote chainID (quoteRequestOf sellToken buyToken from_ sellAmount)).2
      = .error err) :
    getSwapQuote parse now cowClient covClient chainID sellToken buyToken from_ sellAmount
      = (gatewayTrace cowClient chainID (quoteRequestOf sellToken buyToken from_ sellAmount),
          if err.msg = ErrSellAmountDoesNotCoverFee then .error err
          else .error ⟨"getting swap quote"⟩) := by
  unfold quoteRequestOf at hq
  simp only [getSwapQuote, hq, gatewayTrace, quoteRequestOf]
  split <;> rfl

/-- What `getSwapQuote` returns once both the gateway and the oracle have
answered without error: the three parses in order, then the assembly. -/
theorem getSwapQuote_after_price (parse : String → Except GoError Nat) (now : Int)
    (cowClient : IClient) (covClient : CovalentClient) (chainID : ChainID)
    (sellToken buyToken from_ sellAmount : String) (q : QuoteResponse)
    (tp : Option TokenPriceResponse)
    (hq : (cowClient.Quote chainID (quoteRequestOf sellToken buyToken from_ sellAmount)).2
      = .ok q)
    (htp : covClient.TokenPrice chainID.Reference buyToken now = .ok tp) :
    (getSwapQuote parse now cowClient covClient chainID sellToken buyToken from_ sellAmount).2
      = (match parse q.Quote.BuyAmount with
          | .error err => .error err
          | .ok buyAmount =>
            match parse q.Quote.SellAmount with
            | .error err => .error err
            | .ok selAmount =>
              match parse q.Quote.FeeAmount with
              | .error err => .error err
              | .ok feeAmount =>
                .ok { BuyAmount := buyAmount
                      BuyTokenQuoteRate := rateOf tp
                      SellAmount := selAmount
                      FeeAmount := feeAmount
                      ValidTo := timestampOfUnix (int64OfUint64 q.Quote.ValidTo) }) := by
  unfold quoteRequestOf at hq
  simp only [getSwapQuote, hq, htp]
  cases parse q.Quote.BuyAmount <;> simp only []
  cases parse q.Quote.SellAmount <;> simp only []
  cases parse q.Quote.FeeAmount <;> simp only []
  cases tp <;> rfl

/-- The trace up to the gateway call holds no oracle call. -/
theorem mem_gatewayTrace_not_tokenPrice (cowClient : IClient) (chainID : ChainID)
    (req : QuoteRequest) (e : Event) (he : e ∈ gatewayTrace cowClient chainID req) :
    e.isTokenPrice = false := by
  simp only [gatewayTrace, List.mem_cons, List.mem_map] at he
  rcases he with rfl | ⟨c, _, rfl⟩ <;> rfl

/-! ## C1: the fee error is passed on unchanged and the oracle is not asked -/

/-- C1: when the gateway's `Quote` fails with the error whose text is exactly
"SellAmountDoesNotCoverFee", `getSwapQuote` returns no `SwapQuote`, returns that
error unchanged, and its trace holds no call of the oracle's `TokenPrice`,
whatever oracle is plugged in. -/
theorem getSwapQuote_fee_error_unchanged (parse : String → Except GoError Nat) (now : Int)
    (cowClient : IClient) (covClient : CovalentClient) (chainID : ChainID)
    (sellToken buyToken from_ sellAmount : String)
    (hq : (cowClient.Quote chainID (quoteRequestOf sellToken buyToken from_ sellAmount)).2
      = .error ⟨"SellAmountDoesNotCoverFee"⟩) :
    (getSwapQuote parse now cowClient covClient chainID sellToken buyToken from_ sellAmount).2
        = .error ⟨"SellAmountDoesNotCoverFee"⟩
      ∧ ∀ e ∈ (getSwapQuote parse now cowClient covClient chainID sellToken buyToken from_
          sellAmount).1, e.isTokenPrice = false := by
  rw [getSwapQuote_quote_error parse now cowClient covClient chainID sellToken buyToken from_
    sellAmount _ hq]
  refine ⟨by simp [ErrSellAmountDoesNotCoverFee], ?_⟩
  intro e he
  exact mem_gatewayTrace_not_tokenPrice cowClient chainID _ e he

/-- C1 at the fake client after `SetQuoteError`, with an oracle that would have
answered with a price. -/
theorem getSwapQuote_fee_error_unchanged_witness :
    ((FakeClient.toIClient scenarioQuote NewFakeClient.SetQuoteError).Quote mainnet
        (quoteRequestOf usdcAddress wethAddress treasuryAddress "1")).2
        = .error ⟨"SellAmountDoesNotCoverFee"⟩
      ∧ ((getSwapQuote ParseUint256 0 (FakeClient.toIClient scenarioQuote
            NewFakeClient.SetQuoteError) (constOracle (.ok (some ⟨some price1800_50⟩)))
            mainnet usdcAddress wethAddress treasuryAddress "1").2
          = .error ⟨"SellAmountDoesNotCoverFee"⟩
        ∧ ∀ e ∈ (getSwapQuote ParseUint256 0 (FakeClient.toIClient scenarioQuote
            NewFakeClient.SetQuoteError) (constOracle (.ok (some ⟨some price1800_50⟩)))
            mainnet usdcAddress wethAddress treasuryAddress "1").1, e.isTokenPrice = false) :=
  ⟨rfl, getSwapQuote_fee_error_unchanged ParseUint256 0
    (FakeClient.toIClient scenarioQuote NewFakeClient.SetQuoteError)
    (constOracle (.ok (some ⟨some price1800_50⟩))) mainnet usdcAddress wethAddress
    treasuryAddress "1" rfl⟩

/-! ## C3: an oracle without a price -/

/-- C3, refuted as stated: with the scenario quote from the fake gateway and an
oracle that returns no price and no error, the answer of `getSwapQuote` carries
a present rate, the zero `float64`, and not an absent one. -/
theorem getSwapQuote_nil_price_rate_present :
    (getSwapQuote ParseUint256 0 (FakeClient.toIClient scenarioQuote NewFakeClient)
        (constOracle (.ok none)) mainnet usdcAddress wethAddress treasuryAddress
        "500000000").2
      = .ok { BuyAmount := 250000000000000000, BuyTokenQuoteRate := some Float64.zero,
              SellAmount := 500000000, FeeAmount := 10000,
              ValidTo := { Seconds := 1700000000, Nanos := 0 } }
    ∧ ¬ ∃ q, (getSwapQuote ParseUint256 0 (FakeClient.toIClient scenarioQuote NewFakeClient)
          (constOracle (.ok none)) mainnet usdcAddress wethAddress treasuryAddress
          "500000000").2 = .ok q ∧ q.BuyTokenQuoteRate = none := by
  refine ⟨rfl, ?_⟩
  rintro ⟨q, hq, hrate⟩
  have h : (getSwapQuote ParseUint256 0 (FakeClient.toIClient scenarioQuote NewFakeClient)
        (constOracle (.ok none)) mainnet usdcAddress wethAddress treasuryAddress
        "500000000").2
      = .ok { BuyAmount := 250000000000000000, BuyTokenQuoteRate := some Float64.zero,
              SellAmount := 500000000, FeeAmount := 10000,
              ValidTo := { Seconds := 1700000000, Nanos := 0 } } := rfl
  rw [h] at hq
  injection hq with hq
  subst hq
  simp at hrate

/-- C3, amended: when the gateway's `Quote` succeeds with three amounts that
parse and the oracle's `TokenPrice` returns nil without error, `getSwapQuote`
returns a `SwapQuote` whose `BuyTokenQuoteRate` is present and is the zero
`float64` that `new(float64)` allocated, while `BuyAmount`, `SellAmount` and
`FeeAmount` are the parsed amounts. -/
theorem getSwapQuote_nil_price_zero_rate (parse : String → Except GoError Nat) (now : Int)
    (cowClient : IClient) (covClient : CovalentClient) (chainID : ChainID)
    (sellToken buyToken from_ sellAmount : String) (q : QuoteResponse) (b s f : Nat)
    (hq : (cowClient.Quote chainID (quoteRequestOf sellToken buyToken from_ sellAmount)).2
      = .ok q)
    (htp : covClient.TokenPrice chainID.Reference buyToken now = .ok none)
    (hb : parse q.Quote.BuyAmount = .ok b) (hs : parse q.Quote.SellAmount = .ok s)
    (hf : parse q.Quote.FeeAmount = .ok f) :
    (getSwapQuote parse now cowClient covClient chainID sellToken buyToken from_ sellAmount).2
      = .ok { BuyAmount := b, BuyTokenQuoteRate := some Float64.zero, SellAmount := s,
              FeeAmount := f, ValidTo := timestampOfUnix (int64OfUint64 q.Quote.ValidTo) } := by
  rw [getSwapQuote_after_price parse now cowClient covClient chainID sellToken buyToken from_
    sellAmount q none hq htp]
  simp only [hb, hs, hf, rateOf]

/-- C3, amended, at the scenario quote and an oracle without a price. -/
theorem getSwapQuote_nil_price_zero_rate_witness :
    (getSwapQuote ParseUint256 7 (constGateway (.ok scenarioQuote)) (constOracle (.ok none))
        mainnet usdcAddress wethAddress treasuryAddress "500000000").2
      = .ok { BuyAmount := 250000000000000000, BuyTokenQuoteRate := some Float64.zero,
              SellAmount := 500000000, FeeAmount := 10000,
              ValidTo := timestampOfUnix (int64OfUint64 1700000000) } :=
  getSwapQuote_nil_price_zero_rate ParseUint256 7 (constGateway (.ok scenarioQuote))
    (constOracle (.ok none)) mainnet usdcAddress wethAddress treasuryAddress "500000000"
    scenarioQuote 250000000000000000 500000000 10000 rfl rfl rfl rfl rfl

/-! ## C4: assembling the quote -/

/-- C4: when the gateway's `Quote` succeeds, the oracle's `TokenPrice` returns a
price and the three amount strings parse, `getSwapQuote` returns a `SwapQuote`
whose `BuyAmount`, `SellAmount` and `FeeAmount` are the parsed values of the
quote's `buyAmount`, `sellAmount` and `feeAmount` and whose `BuyTokenQuoteRate`
is the oracle's last price. -/
theorem getSwapQuote_assembles (parse : String → Except GoError Nat) (now : Int)
    (cowClient : IClient) (covClient : CovalentClient) (chainID : ChainID)
    (sellToken buyToken from_ sellAmount : String) (q : QuoteResponse)
    (tp : TokenPriceResponse) (p : Float64) (b s f : Nat)
    (hq : (cowClient.Quote chainID (quoteRequestOf sellToken buyToken from_ sellAmount)).2
      = .ok q)
    (htp : covClient.TokenPrice chainID.Reference buyToken now = .ok (some tp))
    (hp : tp.LastPrice = some p)
    (hb : parse q.Quote.BuyAmount = .ok b) (hs : parse q.Quote.SellAmount = .ok s)
    (hf : parse q.Quote.FeeAmount = .ok f) :
    ∃ out, (getSwapQuote parse now cowClient covClient chainID sellToken buyToken from_
        sellAmount).2 = .ok out
      ∧ out.BuyAmount = b ∧ out.SellAmount = s ∧ out.FeeAmount = f
      ∧ out.BuyTokenQuoteRate = some p := by
  rw [getSwapQuote_after_price parse now cowClient covClient chainID sellToken buyToken from_
    sellAmount q (some tp) hq htp]
  simp only [hb, hs, hf, rateOf, hp]
  exact ⟨_, rfl, rfl, rfl, rfl, rfl⟩

/-- C4 at the scenario of the specification: buyAmount "250000000000000000",
sellAmount "500000000", feeAmount "10000" and last price 1800.50, parsed by the
decimal parser. -/
theorem getSwapQuote_assembles_witness :
    ParseUint256 "250000000000000000" = .ok 250000000000000000
    ∧ ParseUint256 "500000000" = .ok 500000000
    ∧ ParseUint256 "10000" = .ok 10000
    ∧ ∃ out, (getSwapQuote ParseUint256 0 (FakeClient.toIClient scenarioQuote NewFakeClient)
          (constOracle (.ok (some ⟨some price1800_50⟩))) mainnet usdcAddress wethAddress
          treasuryAddress "500000000").2 = .ok out
        ∧ out.BuyAmount = 250000000000000000 ∧ out.SellAmount = 500000000
        ∧ out.FeeAmount = 10000 ∧ out.BuyTokenQuoteRate = some price1800_50 :=
  ⟨rfl, rfl, rfl,
    getSwapQuote_assembles ParseUint256 0 (FakeClient.toIClient scenarioQuote NewFakeClient)
      (constOracle (.ok (some ⟨some price1800_50⟩))) mainnet usdcAddress wethAddress
      treasuryAddress "500000000" scenarioQuote ⟨some price1800_50⟩ price1800_50
      250000000000000000 500000000 10000 rfl rfl rfl rfl rfl rfl⟩

/-! ## C6: amounts that do not parse -/

/-- C6, refuted as stated: the malformed string "12x" placed in `buyAmount` and
the same string placed in `sellAmount` make `getSwapQuote` return the very same
error, so the error does not tell which field failed. -/
theorem getSwapQuote_parse_error_same_in_two_fields :
    (getSwapQuote ParseUint256 0
        (FakeClient.toIClient (quoteWith "12x" "500000000" "10000" 1700000000) NewFakeClient)
        (constOracle (.ok (some ⟨some price1800_50⟩))) mainnet usdcAddress wethAddress
        treasuryAddress "500000000").2
      = .error ⟨"parsing uint256: 12x"⟩
    ∧ (getSwapQuote ParseUint256 0
        (FakeClient.toIClient (quoteWith "250000000000000000" "12x" "10000" 1700000000)
          NewFakeClient)
        (constOracle (.ok (some ⟨some price1800_50⟩))) mainnet usdcAddress wethAddress
        treasuryAddress "500000000").2
      = .error ⟨"parsing uint256: 12x"⟩ :=
  ⟨rfl, rfl⟩

/-- C6, amended: when the gateway's `Quote` and the oracle's `TokenPrice` both
succeed but one of the quote's `buyAmount`, `sellAmount`, `feeAmount` strings
does not parse, `getSwapQuote` returns no `SwapQuote` (no amount is coerced to
zero) and returns, unchanged, the parser's own error for the first string that
fails, in the order buyAmount, sellAmount, feeAmount; the error is what the
parser made of the string alone and carries no field name. -/
theorem getSwapQuote_parse_failure (parse : String → Except GoError Nat) (now : Int)
    (cowClient : IClient) (covClient : CovalentClient) (chainID : ChainID)
    (sellToken buyToken from_ sellAmount : String) (q : QuoteResponse)
    (tp : Option TokenPriceResponse)
    (hq : (cowClient.Quote chainID (quoteRequestOf sellToken buyToken from_ sellAmount)).2
      = .ok q)
    (htp : covClient.TokenPrice chainID.Reference buyToken now = .ok tp)
    (hfail : ¬ ∃ b s f, parse q.Quote.BuyAmount = .ok b ∧ parse q.Quote.SellAmount = .ok s
      ∧ parse q.Quote.FeeAmount = .ok f) :
    ∃ e, (getSwapQuote parse now cowClient covClient chainID sellToken buyToken from_
        sellAmount).2 = .error e
      ∧ (parse q.Quote.BuyAmount = .error e
        ∨ (∃ b, parse q.Quote.BuyAmount = .ok b ∧ parse q.Quote.SellAmount = .error e)
        ∨ (∃ b s, parse q.Quote.BuyAmount = .ok b ∧ parse q.Quote.SellAmount = .ok s
            ∧ parse q.Quote.FeeAmount = .error e)) := by
  rw [getSwapQuote_after_price parse now cowClient covClient chainID sellToken buyToken from_
    sellAmount q tp hq htp]
  cases hb : parse q.Quote.BuyAmount with
  | error e => exact ⟨e, rfl, Or.inl rfl⟩
  | ok b =>
    cases hs : parse q.Quote.SellAmount with
    | error e => exact ⟨e, rfl, Or.inr (Or.inl ⟨b, rfl, rfl⟩)⟩
    | ok s =>
      cases hf : parse q.Quote.FeeAmount with
      | error e => exact ⟨e, rfl, Or.inr (Or.inr ⟨b, s, rfl, rfl, rfl⟩)⟩
      | ok f => exact absurd ⟨b, s, f, hb, hs, hf⟩ hfail

/-- C6, amended, at a quote whose `feeAmount` is "12x". -/
theorem getSwapQuote_parse_failure_witness :
    ∃ e, (getSwapQuote ParseUint256 0
          (constGateway (.ok (quoteWith "250000000000000000" "500000000" "12x" 1700000000)))
          (constOracle (.ok none)) mainnet usdcAddress wethAddress treasuryAddress
          "500000000").2 = .error e
      ∧ (ParseUint256 "250000000000000000" = .error e
        ∨ (∃ b, ParseUint256 "250000000000000000" = .ok b
            ∧ ParseUint256 "500000000" = .error e)
        ∨ (∃ b s, ParseUint256 "250000000000000000" = .ok b
            ∧ ParseUint256 "500000000" = .ok s ∧ ParseUint256 "12x" = .error e)) :=
  getSwapQuote_parse_failure ParseUint256 0
    (constGateway (.ok (quoteWith "250000000000000000" "500000000" "12x" 1700000000)))
    (constOracle (.ok none)) mainnet usdcAddress wethAddress treasuryAddress "500000000"
    (quoteWith "250000000000000000" "500000000" "12x" 1700000000) none rfl rfl
    (by
      rintro ⟨b, s, f, _, _, hf⟩
      have h : ParseUint256 "12x" = .error ⟨"parsing uint256: 12x"⟩ := rfl
      have hf2 : ParseUint256 "12x" = .ok f := hf
      rw [h] at hf2
      cases hf2)

/-! ## C8: the validity instant -/

/-- Below `2 ^ 63` the conversion `int64(x)` keeps the value. -/
theorem int64OfUint64_small (v : Nat) (hv : v < 2 ^ 63) : int64OfUint64 v = (v : Int) := by
  have h64 : v % 2 ^ 64 = v := Nat.mod_eq_of_lt (by omega)
  simp only [int64OfUint64, h64]
  rw [if_pos hv]

/-- C8, refuted as stated: for the 64-bit unsigned timestamp `2 ^ 63` the
`ValidTo` of the answer lies `2 ^ 63` seconds before the Unix epoch, not
`2 ^ 63` seconds after it. -/
theorem getSwapQuote_validTo_wraps :
    (getSwapQuote ParseUint256 0
        (FakeClient.toIClient (quoteWith "250000000000000000" "500000000" "10000"
          9223372036854775808) NewFakeClient)
        (constOracle (.ok (some ⟨some price1800_50⟩))) mainnet usdcAddress wethAddress
        treasuryAddress "500000000").2
      = .ok { BuyAmount := 250000000000000000, BuyTokenQuoteRate := some price1800_50,
              SellAmount := 500000000, FeeAmount := 10000,
              ValidTo := { Seconds := -9223372036854775808, Nanos := 0 } }
    ∧ (9223372036854775808 : Nat) < 2 ^ 64
    ∧ (-9223372036854775808 : Int) ≠ ((9223372036854775808 : Nat) : Int) :=
  ⟨rfl, by decide, by decide⟩

/-- C8, amended: for every validity timestamp `v` below `2 ^ 63` in a successful
gateway quote, the `ValidTo` of the `SwapQuote` returned by `getSwapQuote` is the
instant exactly `v` seconds, and zero nanoseconds, after the Unix epoch. -/
theorem getSwapQuote_validTo (parse : String → Except GoError Nat) (now : Int)
    (cowClient : IClient) (covClient : CovalentClient) (chainID : ChainID)
    (sellToken buyToken from_ sellAmount : String) (q : QuoteResponse)
    (tp : Option TokenPriceResponse) (b s f : Nat)
    (hq : (cowClient.Quote chainID (quoteRequestOf sellToken buyToken from_ sellAmount)).2
      = .ok q)
    (htp : covClient.TokenPrice chainID.Reference buyToken now = .ok tp)
    (hb : parse q.Quote.BuyAmount = .ok b) (hs : parse q.Quote.SellAmount = .ok s)
    (hf : parse q.Quote.FeeAmount = .ok f)
    (hv : q.Quote.ValidTo < 2 ^ 63) :
    ∃ out, (getSwapQuote parse now cowClient covClient chainID sellToken buyToken from_
        sellAmount).2 = .ok out
      ∧ out.ValidTo = { Seconds := (q.Quote.ValidTo : Int), Nanos := 0 } := by
  rw [getSwapQuote_after_price parse now cowClient covClient chainID sellToken buyToken from_
    sellAmount q tp hq htp]
  simp only [hb, hs, hf]
  refine ⟨_, rfl, ?_⟩
  simp only [timestampOfUnix, int64OfUint64_small _ hv]

/-- C8, amended, at `v = 1700000000`, which is 19675 days, 22 hours, 13 minutes
and 20 seconds after the epoch (2023-11-14T22:13:20Z). -/
theorem getSwapQuote_validTo_witness :
    (1700000000 : Int) = 19675 * 86400 + 22 * 3600 + 13 * 60 + 20
    ∧ ∃ out, (getSwapQuote ParseUint256 0 (FakeClient.toIClient scenarioQuote NewFakeClient)
          (constOracle (.ok (some ⟨some price1800_50⟩))) mainnet usdcAddress wethAddress
          treasuryAddress "500000000").2 = .ok out
        ∧ out.ValidTo = { Seconds := ((1700000000 : Nat) : Int), Nanos := 0 } :=
  ⟨by decide,
    getSwapQuote_validTo ParseUint256 0 (FakeClient.toIClient scenarioQuote NewFakeClient)
      (constOracle (.ok (some ⟨some price1800_50⟩))) mainnet usdcAddress wethAddress
      treasuryAddress "500000000" scenarioQuote (some ⟨some price1800_50⟩)
      250000000000000000 500000000 10000 rfl rfl rfl rfl rfl (by decide)⟩

/-! ## C2: a buy token outside the registry -/

/-- C2: once the governor id converts and the governor lookup succeeds, a buy
token whose chain-qualified id string is not a key of `SwapTokensMap` makes
`QuoteSwap` return an InvalidArgument error and no `SwapQuote`, and its trace
holds no call of the gateway's `Quote`, no HTTP request and no call of the
oracle's `TokenPrice`. -/
theorem QuoteSwap_unregistered_buy (r : Resolver) (governorID buy sell : ProtoAccountID)
    (sellAmount : Nat) (gid : AccountID) (g : Governor)
    (hc : r.ToCAIP governorID = .ok gid) (hg : r.GovernanceGet gid = .ok g)
    (hb : r.registry.SwapTokensMap.get buy.String = none) :
    (QuoteSwap r governorID buy sell sellAmount).2
        = .error ⟨.InvalidArgument, "buy token not availble"⟩
      ∧ ∀ e ∈ (QuoteSwap r governorID buy sell sellAmount).1,
          e.isCowQuote = false ∧ e.isHttp = false ∧ e.isTokenPrice = false := by
  have h : QuoteSwap r governorID buy sell sellAmount
      = ([.governanceGet gid], .error ⟨.InvalidArgument, "buy token not availble"⟩) := by
    simp only [QuoteSwap, hc, hg, hb]
  rw [h]
  refine ⟨rfl, ?_⟩
  intro e he
  simp only [List.mem_singleton] at he
  subst he
  exact ⟨rfl, rfl, rfl⟩

/-- C2 at the initialised registry, a mainnet governor and an address that the
token table does not list, with a gateway and an oracle that would both answer. -/
theorem QuoteSwap_unregistered_buy_witness :
    (QuoteSwap (sampleResolver (constGateway (.ok scenarioQuote))
          (constOracle (.ok (some ⟨some price1800_50⟩))) initialized)
        (protoID mainnet governorAddress) (protoID mainnet unlistedAddress)
        (protoID mainnet usdcAddress) 500000000).2
        = .error ⟨.InvalidArgument, "buy token not availble"⟩
      ∧ ∀ e ∈ (QuoteSwap (sampleResolver (constGateway (.ok scenarioQuote))
          (constOracle (.ok (some ⟨some price1800_50⟩))) initialized)
        (protoID mainnet governorAddress) (protoID mainnet unlistedAddress)
        (protoID mainnet usdcAddress) 500000000).1,
          e.isCowQuote = false ∧ e.isHttp = false ∧ e.isTokenPrice = false :=
  QuoteSwap_unregistered_buy (sampleResolver (constGateway (.ok scenarioQuote))
      (constOracle (.ok (some ⟨some price1800_50⟩))) initialized)
    (protoID mainnet governorAddress) (protoID mainnet unlistedAddress)
    (protoID mainnet usdcAddress) 500000000 ⟨mainnet, governorAddress⟩
    ⟨⟨mainnet, treasuryAddress⟩⟩ rfl rfl (by decide)

/-! ## C5: a chain the gateway does not serve -/

/-- The function `chainIDToName` fails on every reference other than "1". -/
theorem chainIDToName_unsupported (chainID : ChainID) (h : chainID.Reference ≠ "1") :
    chainIDToName chainID = .error ⟨"invalid chain"⟩ := by
  simp only [chainIDToName, if_neg h]

/-- On an unsupported chain `(*Client).Quote` fails before any HTTP request. -/
theorem Client_Quote_unsupported (net : Net) (chainID : ChainID) (req : QuoteRequest)
    (h : chainID.Reference ≠ "1") :
    Client.Quote net chainID req = ([], .error ⟨"getting chain name"⟩) := by
  simp only [Client.Quote, chainIDToName_unsupported chainID h]

/-- C5, refuted as stated: for a governor on chain reference "137" asking, through
the real gateway client, for a quote of a registered buy token, `QuoteSwap` fails
with the Internal classification and the text "getting swap quote", not with
InvalidArgument. -/
theorem QuoteSwap_unsupported_chain_is_internal :
    QuoteSwap (sampleResolver (Client.toIClient sampleNet)
        (constOracle (.ok (some ⟨some price1800_50⟩))) initialized)
      (protoID polygon governorAddress) (protoID mainnet wethAddress)
      (protoID mainnet usdcAddress) 500000000
    = ([.governanceGet ⟨polygon, governorAddress⟩,
        .cowQuote polygon (quoteRequestOf usdcAddress wethAddress treasuryAddress "500000000")],
       .error ⟨.Internal, "getting swap quote"⟩)
    ∧ polygon.Reference ≠ "1" ∧ Code.Internal ≠ Code.InvalidArgument :=
  ⟨rfl, by decide, by decide⟩

/-- C5, amended: for every chain id whose reference is not "1", requesting a
quote through the real gateway client for a registered buy token (once the
governor id converts and the governor lookup succeeds) fails at `QuoteSwap` with
the Internal classification and the text "getting swap quote"; no network
request is made: `chainIDToName` fails, `Client.Quote` returns its error before
any HTTP call, and the oracle's `TokenPrice` is not called. -/
theorem QuoteSwap_unsupported_chain (r : Resolver) (net : Net)
    (governorID buy sell : ProtoAccountID) (sellAmount : Nat) (gid : AccountID)
    (g : Governor) (t : SwapToken)
    (hcow : r.Cow = Client.toIClient net)
    (hc : r.ToCAIP governorID = .ok gid) (hg : r.GovernanceGet gid = .ok g)
    (hb : r.registry.SwapTokensMap.get buy.String = some t)
    (hchain : gid.ChainID.Reference ≠ "1") :
    (QuoteSwap r governorID buy sell sellAmount).2
        = .error ⟨.Internal, "getting swap quote"⟩
      ∧ (∀ e ∈ (QuoteSwap r governorID buy sell sellAmount).1,
          e.isHttp = false ∧ e.isTokenPrice = false)
      ∧ ∃ e, chainIDToName gid.ChainID = .error e := by
  have hquote : ∀ req, r.Cow.Quote gid.ChainID req = ([], .error ⟨"getting chain name"⟩) := by
    intro req
    rw [hcow]
    exact Client_Quote_unsupported net gid.ChainID req hchain
  have hget := getSwapQuote_quote_error r.ParseUint256 r.now r.Cow r.Covalent gid.ChainID
    sell.Address buy.Address g.TreasuryID.Address (toString sellAmount) ⟨"getting chain name"⟩
    (by rw [hquote])
  have hne : ¬ ("getting chain name" = ErrSellAmountDoesNotCoverFee) := by decide
  have hne2 : ¬ ("getting swap quote" = ErrSellAmountDoesNotCoverFee) := by decide
  simp only [if_neg hne, gatewayTrace, hquote, List.map_nil] at hget
  have h : QuoteSwap r governorID buy sell sellAmount
      = ([.governanceGet gid, .cowQuote gid.ChainID (quoteRequestOf sell.Address buy.Address
            g.TreasuryID.Address (toString sellAmount))],
          .error ⟨.Internal, "getting swap quote"⟩) := by
    simp only [QuoteSwap, hc, hg, hb, hget, if_neg hne2]
  rw [h]
  refine ⟨rfl, ?_, ⟨_, chainIDToName_unsupported gid.ChainID hchain⟩⟩
  intro e he
  simp only [List.mem_cons, List.mem_singleton, List.not_mem_nil, or_false] at he
  rcases he with rfl | rfl <;> exact ⟨rfl, rfl⟩

/-- C5, amended, at a governor on chain reference "137" and the registered WETH. -/
theorem QuoteSwap_unsupported_chain_witness :
    (QuoteSwap (sampleResolver (Client.toIClient sampleNet) (constOracle (.ok none))
          initialized)
        (protoID polygon governorAddress) (protoID mainnet wethAddress)
        (protoID mainnet usdcAddress) 500000000).2
        = .error ⟨.Internal, "getting swap quote"⟩
      ∧ (∀ e ∈ (QuoteSwap (sampleResolver (Client.toIClient sampleNet)
            (constOracle (.ok none)) initialized)
          (protoID polygon governorAddress) (protoID mainnet wethAddress)
          (protoID mainnet usdcAddress) 500000000).1,
          e.isHttp = false ∧ e.isTokenPrice = false)
      ∧ ∃ e, chainIDToName polygon = .error e :=
  QuoteSwap_unsupported_chain (sampleResolver (Client.toIClient sampleNet)
      (constOracle (.ok none)) initialized) sampleNet
    (protoID polygon governorAddress) (protoID mainnet wethAddress)
    (protoID mainnet usdcAddress) 500000000 ⟨polygon, governorAddress⟩
    ⟨⟨polygon, treasuryAddress⟩⟩
    { usdcToken with
      Symbol := "WETH", Name := "Wrapped Ether", Address := wethAddress, Decimals := 18,
      ID := some (protoID mainnet wethAddress),
      Logo := "https://tokens.1inch.io/0xc02aaa39b223fe8d0a0e5c4f27ead9083c756cc2.png" }
    rfl rfl rfl (by decide) (by decide)

/-! ## C7: `init` and an address that does not resolve -/

/-- At an address that does not resolve the loop of `init` ends and leaves the
map as it is, whatever entries follow. -/
theorem initLoop_unresolved_head (NewAccountID : ChainID → String → Except GoError AccountID)
    (c : ChainID) (t : SwapToken) (rest : List SwapToken) (m : TokenMap) (e : GoError)
    (h : NewAccountID c t.Address = .error e) :
    initLoop NewAccountID c (t :: rest) m = m := by
  simp only [initLoop, h]

/-- Reading a key just written gives the written value. -/
theorem TokenMap_get_set_self (m : TokenMap) (k : String) (v : SwapToken) :
    (m.set k v).get k = some v := by
  induction m with
  | nil => simp [TokenMap.set, TokenMap.get]
  | cons p rest ih =>
    obtain ⟨k1, v1⟩ := p
    by_cases h : k1 = k
    · simp [TokenMap.set, TokenMap.get, h]
    · simp [TokenMap.set, TokenMap.get, h, ih]

/-- Writing a key leaves every other key as it was. -/
theorem TokenMap_get_set_ne (m : TokenMap) (k k2 : String) (v : SwapToken) (hne : k ≠ k2) :
    (m.set k v).get k2 = m.get k2 := by
  induction m with
  | nil => simp [TokenMap.set, TokenMap.get, hne]
  | cons p rest ih =>
    obtain ⟨k1, v1⟩ := p
    by_cases h : k1 = k
    · subst h
      simp [TokenMap.set, TokenMap.get, hne]
    · simp only [TokenMap.set, if_neg h, TokenMap.get, ih]

/-- Whatever the map holds after the loop of `init` was there before or is one
of the entries written for the tokens ahead of the first unresolved address. -/
theorem initLoop_get_source (f : ChainID → String → Except GoError AccountID) (c : ChainID)
    (ts : List SwapToken) (m : TokenMap) (k : String) (v : SwapToken)
    (h : (initLoop f c ts m).get k = some v) :
    m.get k = some v ∨ (k, v) ∈ registeredEntries f c ts := by
  induction ts generalizing m with
  | nil => exact Or.inl (by simpa [initLoop] using h)
  | cons t rest ih =>
    cases hr : f c t.Address with
    | error e =>
      simp only [initLoop, hr] at h
      exact Or.inl h
    | ok id =>
      simp only [initLoop, hr] at h
      simp only [registeredEntries, hr, List.mem_cons]
      rcases ih _ h with h1 | h1
      · by_cases hk : (AccountIDToProto id).String = k
        · subst hk
          rw [TokenMap_get_set_self] at h1
          injection h1 with h1
          subst h1
          exact Or.inr (Or.inl rfl)
        · rw [TokenMap_get_set_ne _ _ _ _ hk] at h1
          exact Or.inl h1
      · exact Or.inr (Or.inr h1)

/-- The loop of `init` leaves untouched every key that no written entry has. -/
theorem initLoop_get_outside (f : ChainID → String → Except GoError AccountID) (c : ChainID)
    (ts : List SwapToken) (m : TokenMap) (k : String)
    (h : k ∉ (registeredEntries f c ts).map Prod.fst) :
    (initLoop f c ts m).get k = m.get k := by
  induction ts generalizing m with
  | nil => simp [initLoop]
  | cons t rest ih =>
    cases hr : f c t.Address with
    | error e => simp only [initLoop, hr]
    | ok id =>
      simp only [registeredEntries, hr, List.map_cons, List.mem_cons, not_or] at h
      simp only [initLoop, hr]
      rw [ih _ h.2, TokenMap_get_set_ne _ _ _ _ (Ne.symm h.1)]

/-- A key present before the loop of `init` is present after it. -/
theorem initLoop_get_keeps (f : ChainID → String → Except GoError AccountID) (c : ChainID)
    (ts : List SwapToken) (m : TokenMap) (k : String) (h : (m.get k).isSome) :
    ((initLoop f c ts m).get k).isSome := by
  induction ts generalizing m with
  | nil => simpa [initLoop] using h
  | cons t rest ih =>
    cases hr : f c t.Address with
    | error e => simpa only [initLoop, hr] using h
    | ok id =>
      simp only [initLoop, hr]
      apply ih
      by_cases hk : (AccountIDToProto id).String = k
      · subst hk
        rw [TokenMap_get_set_self]; rfl
      · rw [TokenMap_get_set_ne _ _ _ _ hk]; exact h

/-- Every written entry's key is present after the loop of `init`. -/
theorem initLoop_get_entry (f : ChainID → String → Except GoError AccountID) (c : ChainID)
    (ts : List SwapToken) (m : TokenMap) (k : String) (v : SwapToken)
    (h : (k, v) ∈ registeredEntries f c ts) :
    ((initLoop f c ts m).get k).isSome := by
  induction ts generalizing m with
  | nil => simp [registeredEntries] at h
  | cons t rest ih =>
    cases hr : f c t.Address with
    | error e => simp [registeredEntries, hr] at h
    | ok id =>
      simp only [registeredEntries, hr, List.mem_cons] at h
      simp only [initLoop, hr]
      rcases h with h | h
      · injection h with h1 h2
        subst h1
        apply initLoop_get_keeps
        rw [TokenMap_get_set_self]; rfl
      · exact ih _ h

/-- With pairwise distinct keys, every written entry is what the map holds
under its key after the loop of `init`. -/
theorem initLoop_get_entry_nodup (f : ChainID → String → Except GoError AccountID) (c : ChainID)
    (ts : List SwapToken) (m : TokenMap) (k : String) (v : SwapToken)
    (hnd : ((registeredEntries f c ts).map Prod.fst).Nodup)
    (h : (k, v) ∈ registeredEntries f c ts) :
    (initLoop f c ts m).get k = some v := by
  induction ts generalizing m with
  | nil => simp [registeredEntries] at h
  | cons t rest ih =>
    cases hr : f c t.Address with
    | error e => simp [registeredEntries, hr] at h
    | ok id =>
      simp only [registeredEntries, hr, List.mem_cons, List.map_cons, List.nodup_cons] at h hnd
      simp only [initLoop, hr]
      rcases h with h | h
      · injection h with h1 h2
        subst h1 h2
        rw [initLoop_get_outside f c rest _ _ hnd.1, TokenMap_get_set_self]
      · exact ih _ hnd.2 h

/-- Every written entry is the copy of a token of the table whose address
resolved, keyed by the string of the resolved id and carrying that id. -/
theorem registeredEntries_source (f : ChainID → String → Except GoError AccountID) (c : ChainID)
    (ts : List SwapToken) (k : String) (v : SwapToken)
    (h : (k, v) ∈ registeredEntries f c ts) :
    ∃ t ∈ ts, ∃ id, f c t.Address = .ok id ∧ k = (AccountIDToProto id).String
      ∧ v = { t with ID := some (AccountIDToProto id) } := by
  induction ts with
  | nil => simp [registeredEntries] at h
  | cons t rest ih =>
    cases hr : f c t.Address with
    | error e => simp [registeredEntries, hr] at h
    | ok id =>
      simp only [registeredEntries, hr, List.mem_cons] at h
      rcases h with h | h
      · injection h with h1 h2
        exact ⟨t, List.mem_cons_self _ _, id, hr, h1, h2⟩
      · obtain ⟨t1, ht1, r⟩ := ih h
        exact ⟨t1, List.mem_cons_of_mem _ ht1, r⟩

/-- A token whose address does not resolve, and all tokens after it, add no
entry. -/
theorem registeredEntries_cut (f : ChainID → String → Except GoError AccountID) (c : ChainID)
    (pre : List SwapToken) (t : SwapToken) (post : List SwapToken) (e : GoError)
    (ht : f c t.Address = .error e) :
    registeredEntries f c (pre ++ t :: post) = registeredEntries f c pre := by
  induction pre with
  | nil => simp [registeredEntries, ht]
  | cons p rest ih =>
    cases hr : f c p.Address with
    | error e1 => simp [registeredEntries, hr]
    | ok id => simp [registeredEntries, hr, ih]

/-- Every token ahead of the first unresolved address has its entry written. -/
theorem registeredEntries_head (f : ChainID → String → Except GoError AccountID) (c : ChainID)
    (pre post : List SwapToken) (hpre : ∀ t ∈ pre, ∃ id, f c t.Address = .ok id)
    (t : SwapToken) (ht : t ∈ pre) (id : AccountID) (hid : f c t.Address = .ok id) :
    ((AccountIDToProto id).String, { t with ID := some (AccountIDToProto id) })
      ∈ registeredEntries f c (pre ++ post) := by
  induction pre with
  | nil => simp at ht
  | cons p rest ih =>
    obtain ⟨pid, hp⟩ := hpre p (List.mem_cons_self _ _)
    simp only [List.cons_append, registeredEntries, hp, List.mem_cons]
    rcases List.mem_cons.mp ht with h | h
    · subst h
      rw [hid] at hp
      injection hp with hp
      subst hp
      exact Or.inl rfl
    · exact Or.inr (ih (fun t1 ht1 => hpre t1 (List.mem_cons_of_mem _ ht1)) h)

/-- C7, refuted as stated: on the declared table with a resolver that rejects
the WETH address, the address of USDT (which comes after WETH) resolves, yet
the map built by `init` has no entry under the id of USDT, while USDC (which
comes before WETH) is registered. -/
theorem init_omits_tokens_after_unresolved :
    rejectingNewAccountID wethAddress mainnet wethAddress = .error ⟨"invalid address"⟩
    ∧ rejectingNewAccountID wethAddress mainnet "0xdAC17F958D2ee523a2206206994597C13D831ec7"
        = .ok ⟨mainnet, "0xdAC17F958D2ee523a2206206994597C13D831ec7"⟩
    ∧ (init sampleNewChainID (rejectingNewAccountID wethAddress)
        declaredRegistry).SwapTokensMap.get
          (protoID mainnet "0xdAC17F958D2ee523a2206206994597C13D831ec7").String = none
    ∧ (init sampleNewChainID (rejectingNewAccountID wethAddress)
        declaredRegistry).SwapTokensMap.get (protoID mainnet usdcAddress).String
        = some { usdcToken with ID := some (protoID mainnet usdcAddress) } :=
  ⟨rfl, rfl, rfl, rfl⟩

/-- C7, amended: for every token list processed by `init` (a function of the
list and the account-id resolver, once the mainnet chain id is created, starting
from the empty map), the map holds an entry, keyed by its resolved id string and
carrying that id, for exactly the tokens ahead of the first token whose address
does not resolve.  In order: every map entry is a written entry; every written
entry is the copy of a token whose address resolved, under the string of the
resolved id and carrying it; every written entry's key is in the map, and holds
that very entry when the keys are pairwise distinct; the tokens ahead of the
first unresolved address all have their entry written; the first unresolved
token and every token after it add nothing. -/
theorem init_registers_up_to_first_unresolved
    (NewChainID : String → String → Except GoError ChainID)
    (NewAccountID : ChainID → String → Except GoError AccountID) (c : ChainID)
    (tokens : List SwapToken) (hc : NewChainID "eip155" "1" = .ok c) :
    (∀ k v, (init NewChainID NewAccountID
          { SwapTokens := tokens, SwapTokensMap := [] }).SwapTokensMap.get k = some v →
        (k, v) ∈ registeredEntries NewAccountID c tokens)
    ∧ (∀ k v, (k, v) ∈ registeredEntries NewAccountID c tokens →
        ∃ t ∈ tokens, ∃ id, NewAccountID c t.Address = .ok id
          ∧ k = (AccountIDToProto id).String
          ∧ v = { t with ID := some (AccountIDToProto id) })
    ∧ (∀ k v, (k, v) ∈ registeredEntries NewAccountID c tokens →
        ((init NewChainID NewAccountID
          { SwapTokens := tokens, SwapTokensMap := [] }).SwapTokensMap.get k).isSome)
    ∧ (((registeredEntries NewAccountID c tokens).map Prod.fst).Nodup →
        ∀ k v, (k, v) ∈ registeredEntries NewAccountID c tokens →
          (init NewChainID NewAccountID
            { SwapTokens := tokens, SwapTokensMap := [] }).SwapTokensMap.get k = some v)
    ∧ (∀ pre post, tokens = pre ++ post →
        (∀ t ∈ pre, ∃ id, NewAccountID c t.Address = .ok id) →
        ∀ t ∈ pre, ∀ id, NewAccountID c t.Address = .ok id →
          ((AccountIDToProto id).String, { t with ID := some (AccountIDToProto id) })
            ∈ registeredEntries NewAccountID c tokens)
    ∧ (∀ pre t post e, tokens = pre ++ t :: post → NewAccountID c t.Address = .error e →
        registeredEntries NewAccountID c tokens = registeredEntries NewAccountID c pre) := by
  have hinit : (init NewChainID NewAccountID
      { SwapTokens := tokens, SwapTokensMap := [] }).SwapTokensMap
      = initLoop NewAccountID c tokens [] := by
    simp only [init, hc]
  rw [hinit]
  refine ⟨?_, ?_, ?_, ?_, ?_, ?_⟩
  · intro k v h
    rcases initLoop_get_source NewAccountID c tokens [] k v h with h1 | h1
    · simp [TokenMap.get] at h1
    · exact h1
  · intro k v h
    exact registeredEntries_source NewAccountID c tokens k v h
  · intro k v h
    exact initLoop_get_entry NewAccountID c tokens [] k v h
  · intro hnd k v h
    exact initLoop_get_entry_nodup NewAccountID c tokens [] k v hnd h
  · intro pre post htok hpre t ht id hid
    rw [htok]
    exact registeredEntries_head NewAccountID c pre post hpre t ht id hid
  · intro pre t post e htok ht
    rw [htok]
    exact registeredEntries_cut NewAccountID c pre t post e ht

/-- C7, amended, at the declared table and a resolver that accepts its four
addresses: the chain id is created, the four keys are distinct, and the map
holds exactly the four written entries. -/
theorem init_registers_up_to_first_unresolved_witness :
    sampleNewChainID "eip155" "1" = .ok mainnet
    ∧ ((registeredEntries sampleNewAccountID mainnet SwapTokens).map Prod.fst).Nodup
    ∧ (registeredEntries sampleNewAccountID mainnet SwapTokens).length = 4
    ∧ (∀ k v, (init sampleNewChainID sampleNewAccountID
          { SwapTokens := SwapTokens, SwapTokensMap := [] }).SwapTokensMap.get k = some v →
        (k, v) ∈ registeredEntries sampleNewAccountID mainnet SwapTokens)
    ∧ (∀ k v, (k, v) ∈ registeredEntries sampleNewAccountID mainnet SwapTokens →
          (init sampleNewChainID sampleNewAccountID
            { SwapTokens := SwapTokens, SwapTokensMap := [] }).SwapTokensMap.get k = some v) :=
  ⟨rfl, by decide, rfl,
    (init_registers_up_to_first_unresolved sampleNewChainID sampleNewAccountID mainnet
      SwapTokens rfl).1,
    (init_registers_up_to_first_unresolved sampleNewChainID sampleNewAccountID mainnet
      SwapTokens rfl).2.2.2.1 (by decide)⟩

/-! ## C9: the ids of the `SwapTokens` list -/

/-- The function `init` never writes the `SwapTokens` slice. -/
theorem init_keeps_SwapTokens (NewChainID : String → String → Except GoError ChainID)
    (NewAccountID : ChainID → String → Except GoError AccountID) (reg : Registry) :
    (init NewChainID NewAccountID reg).SwapTokens = reg.SwapTokens := by
  unfold init
  cases NewChainID "eip155" "1" <;> rfl

/-- The Buy loop of `AvailableSwaps` stops with a nil dereference at an entry
whose `ID` is nil. -/
theorem buyLoop_nil_id (gid : AccountID) (t : SwapToken) (rest acc : List SwapToken)
    (h : t.ID = none) : buyLoop gid (t :: rest) acc = .nilDeref := by
  simp only [buyLoop, h, GetChainId]

/-- C9, the code at the declared table: `init` stores the resolved id in its
loop copy and in the map only, so every element of `SwapTokens` still has a nil
`ID` afterwards although the map entry for USDC carries its id, and
`AvailableSwaps` for a governor on chain reference "1" ends in a nil dereference
at `t.ID.GetChainId().Reference` and produces no Buy list. -/
theorem AvailableSwaps_reads_nil_id :
    initialized.SwapTokens = SwapTokens
    ∧ (∀ t ∈ initialized.SwapTokens, t.ID = none)
    ∧ (initialized.SwapTokensMap.get (protoID mainnet usdcAddress).String).map SwapToken.ID
        = some (some (protoID mainnet usdcAddress))
    ∧ AvailableSwaps (sampleResolver (constGateway (.ok scenarioQuote))
          (constOracle (.ok none)) initialized) (protoID mainnet governorAddress)
        = ([.governanceGet ⟨mainnet, governorAddress⟩, .balances ⟨mainnet, treasuryAddress⟩],
            .nilDeref) :=
  ⟨rfl, by decide, rfl, rfl⟩

/-! ## C10: the decision step of `NativePrice` -/

/-- The decision step of `NativePrice` fails to complete exactly when the
error type is present and the description is absent. -/
theorem NativePrice_decide_nilDeref_iff (price : NativePriceResponse) :
    Client.NativePrice.decide price = .nilDeref
      ↔ price.ErrorType ≠ none ∧ price.Description = none := by
  rcases price with ⟨_ | et, _ | d, p⟩ <;> simp [Client.NativePrice.decide]

/-- C10, the code at a response that carries an error type and no description:
the decision step of `Client.NativePrice` reads `*price.Description` through a
nil pointer and does not complete, both on its own and at the end of the whole
method. -/
theorem NativePrice_missing_description :
    Client.NativePrice.decide
        { ErrorType := some "NoLiquidity", Description := none, Price := none } = .nilDeref
    ∧ (Client.NativePrice
        (nativePriceNet { ErrorType := some "NoLiquidity", Description := none, Price := none })
        { ChainID := mainnet, Address := wethAddress }).2 = .nilDeref
    ∧ ¬ ∃ r, Client.NativePrice.decide
        { ErrorType := some "NoLiquidity", Description := none, Price := none } = .done r := by
  refine ⟨rfl, rfl, ?_⟩
  rintro ⟨r, hr⟩
  cases hr

end Swaps
